import Mathlib

/-!
Verification of the `optionstools` strategy-optimization engine.

The Python sources `optionstools/optimizer.py`, `optionstools/strategy.py`
and `optionstools/util.py` are shallowly embedded below.  Python floats are
modelled as exact rationals (`ℚ`) for the executable parts and as reals
(`ℝ`) for the continuous-optimizer feasibility analysis.  Python exceptions
are modelled with an explicit error type threaded through `Except`.  The
`optionstools.pricing` module is a compiled Cython extension whose source is
not part of the repository; following the specification (§2, §6) it is a
pure deterministic function, so the Black–Scholes price is taken as an
arbitrary function parameter throughout.
-/

deriving instance DecidableEq for Except

namespace OptionsTools

/-- Python exceptions that the embedded code can raise.
`unoptimized` models `UnoptimizedStrategyOptimizerException` from the
`optionstools.errors` module (imported by `optimizer.py`; the module body is
not in the repository, but only the existence of this exception class
matters here).  The remaining constructors model Python built-in
exceptions. -/
inductive Err where
  | unoptimized
  | attributeError
  | keyError
  | valueError
  | zeroDivisionError
  deriving DecidableEq, Repr

/-- A leg of a strategy as declared at class level in `strategy.py`:
a dict `{'type' : 'call'/'put', 'action' : 'buy'/'sell'}`. -/
structure Leg where
  otype : String
  action : String
  deriving DecidableEq, Repr

/-- The mutable dict object representing one leg at run time.  The Python
dicts in a strategy's class-level `options` list start with only `type` and
`action` keys; `best_strategy` later writes `strike`, `days_to_expiration`
and `quantity` into them in place, hence the `Option`-valued fields. -/
structure LegDict where
  otype : String
  action : String
  strike : Option ℚ
  days_to_expiration : Option ℚ
  quantity : Option ℚ
  deriving DecidableEq, Repr

/-- The shared class-level `options` list of a strategy class: in CPython
the dicts are allocated once per class and aliased by every instance of
that class (and hence by every optimizer built over such an instance).
The world models the current contents of those shared dicts. -/
abbrev World : Type := List LegDict

/-- `optionstools.util.convert_action_string_to_flags`:
`(1,-1)` for `'buy'`, `(-1,1)` otherwise. -/
def convert_action_string_to_flags (action_string : String) : ℤ × ℤ :=
  if action_string = "buy" then (1, -1) else (-1, 1)

/-- The available-options catalog
`{'CALL' : {days : [strikes]}, 'PUT' : ...}`, an insertion-ordered Python
dict modelled as an association list. -/
def Catalog : Type := List (String × List (ℚ × List ℚ))

/-- Python `d[key]` on the catalog: exact key lookup, `KeyError` when
absent. -/
def catalogGet (cat : Catalog) (key : String) : Except Err (List (ℚ × List ℚ)) :=
  match cat.find? (fun kv => kv.1 = key) with
  | some kv => .ok kv.2
  | none => .error .keyError

/-- Python binary `max` on rationals (second argument wins only when
strictly greater). -/
def pyMaxQ (a b : ℚ) : ℚ := if a < b then b else a

/-- Python binary `min` on rationals. -/
def pyMinQ (a b : ℚ) : ℚ := if b < a then b else a

/-- Python binary `max` on integers. -/
def pyMaxI (a b : ℤ) : ℤ := if a < b then b else a

/-- Python binary `min` on integers. -/
def pyMinI (a b : ℤ) : ℤ := if b < a then b else a

/-- Python `abs` on rationals. -/
def pyAbs (q : ℚ) : ℚ := if q < 0 then -q else q

/-- Python `min` over a list of numbers: `ValueError` on the empty list. -/
def pyMin : List ℚ → Except Err ℚ
  | [] => .error .valueError
  | a :: rest => .ok (rest.foldl pyMinQ a)

/-- Python `max` over a list of numbers: `ValueError` on the empty list. -/
def pyMax : List ℚ → Except Err ℚ
  | [] => .error .valueError
  | a :: rest => .ok (rest.foldl pyMaxQ a)

/-- Elements at positions 0, 2, 4, … of a list (one half of a Python
`[a::2]` stride). -/
def stride2 : List ℚ → List ℚ
  | [] => []
  | [a] => [a]
  | a :: _ :: rest => a :: stride2 rest

/-- Python list slicing `l[a:b]` for integer endpoints (negative indices
count from the end, out-of-range endpoints clamp). -/
def pySlice (l : List α) (a b : ℤ) : List α :=
  let n : ℤ := l.length
  let a' : ℤ := if a < 0 then pyMaxI 0 (n + a) else pyMinI a n
  let b' : ℤ := if b < 0 then pyMaxI 0 (n + b) else pyMinI b n
  (l.drop a'.toNat).take (b'.toNat - a'.toNat)

/-- Groups a flat list into consecutive pairs, numpy
`x.reshape(n, 2)`-style; a trailing odd element is dropped. -/
def chunk2 {α : Type} : List α → List (α × α)
  | a :: b :: rest => (a, b) :: chunk2 rest
  | _ => []

/-- `itertools.product` over a list of candidate lists, rightmost factor
varying fastest. -/
def listProduct {α : Type} : List (List α) → List (List α)
  | [] => [[]]
  | l :: ls => l.flatMap (fun a => (listProduct ls).map (fun rest => a :: rest))

/-! ## Strategy definitions (`strategy.py`)

Each concrete strategy contributes its class-level `options` list, its
`x0` initial guess and its `bounds` property.  `bounds` consults the
catalog with Python `min`/`max`, so it can raise; it is embedded in
`Except`.  Float literals such as `1.001` are read as exact rationals. -/

/-- `BullCallSpread.options`. -/
def bullCallSpreadOptions : List Leg :=
  [⟨"call", "buy"⟩, ⟨"call", "sell"⟩]

/-- `BullCallSpread.x0`. -/
def bullCallSpread_x0 (underlying_price min_days_to_expiration : ℚ) : List ℚ :=
  [1, underlying_price - 1, min_days_to_expiration + 1,
   underlying_price + 1, min_days_to_expiration + 1]

/-- Helper for the `bounds` properties: Python
`min([min(strikes) for _, strikes in d.items()])`. -/
def minStrike (entries : List (ℚ × List ℚ)) : Except Err ℚ := do
  let mins ← entries.mapM (fun dk => pyMin dk.2)
  pyMin mins

/-- Helper for the `bounds` properties: Python
`max([max(strikes) for _, strikes in d.items()])`. -/
def maxStrike (entries : List (ℚ × List ℚ)) : Except Err ℚ := do
  let maxs ← entries.mapM (fun dk => pyMax dk.2)
  pyMax maxs

/-- `BullCallSpread.bounds`. -/
def bullCallSpread_bounds (underlying_price min_days_to_expiration : ℚ)
    (available_options : Catalog) : Except Err (List (ℚ × ℚ)) := do
  let calls ← catalogGet available_options "CALL"
  let min_call_days ← pyMin (calls.map (fun dk => dk.1))
  let max_call_days ← pyMax (calls.map (fun dk => dk.1))
  let min_call_strike ← minStrike calls
  let max_call_strike ← maxStrike calls
  return [
    (1, 1000),
    (min_call_strike, underlying_price * (1001/1000)),
    (pyMaxQ min_call_days (min_days_to_expiration + 1), max_call_days),
    (underlying_price * (999/1000), max_call_strike),
    (pyMaxQ min_call_days (min_days_to_expiration + 1), max_call_days)]

/-- `BearPutSpread.options`. -/
def bearPutSpreadOptions : List Leg :=
  [⟨"put", "buy"⟩, ⟨"put", "sell"⟩]

/-- `BearPutSpread.x0`. -/
def bearPutSpread_x0 (underlying_price min_days_to_expiration : ℚ) : List ℚ :=
  [1, underlying_price + 1, min_days_to_expiration,
   underlying_price - 1, min_days_to_expiration]

/-- `BearPutSpread.bounds`. -/
def bearPutSpread_bounds (_underlying_price min_days_to_expiration : ℚ)
    (available_options : Catalog) : Except Err (List (ℚ × ℚ)) := do
  let puts ← catalogGet available_options "PUT"
  let min_put_days ← pyMin (puts.map (fun dk => dk.1))
  let max_put_days ← pyMax (puts.map (fun dk => dk.1))
  let min_put_strike ← minStrike puts
  let max_put_strike ← maxStrike puts
  return [
    (1, 1000),
    (min_put_strike, max_put_strike),
    (pyMaxQ min_put_days (min_days_to_expiration + 1), max_put_days),
    (min_put_strike, max_put_strike),
    (pyMaxQ min_put_days (min_days_to_expiration + 1), max_put_days)]

/-- `ProtectiveCollar.options`. -/
def protectiveCollarOptions : List Leg :=
  [⟨"put", "buy"⟩, ⟨"call", "sell"⟩]

/-- `ProtectiveCollar.x0`. -/
def protectiveCollar_x0 (underlying_price min_days_to_expiration : ℚ) : List ℚ :=
  [1, underlying_price - 1, min_days_to_expiration,
   underlying_price + 1, min_days_to_expiration]

/-- `ProtectiveCollar.bounds`. -/
def protectiveCollar_bounds (underlying_price min_days_to_expiration : ℚ)
    (available_options : Catalog) : Except Err (List (ℚ × ℚ)) := do
  let puts ← catalogGet available_options "PUT"
  let min_put_days ← pyMin (puts.map (fun dk => dk.1))
  let max_put_days ← pyMax (puts.map (fun dk => dk.1))
  let min_put_strike ← minStrike puts
  let _max_put_strike ← maxStrike puts
  let calls ← catalogGet available_options "CALL"
  let min_call_days ← pyMin (calls.map (fun dk => dk.1))
  let max_call_days ← pyMax (calls.map (fun dk => dk.1))
  let _min_call_strike ← minStrike calls
  let max_call_strike ← maxStrike calls
  return [
    (1/1000, 1000),
    (min_put_strike, underlying_price * (99/100)),
    (pyMaxQ min_put_days (min_days_to_expiration + 1), max_put_days),
    (underlying_price * (101/100), max_call_strike),
    (pyMaxQ min_call_days (min_days_to_expiration + 1), max_call_days)]

/-- `LongStrangle.options`. -/
def longStrangleOptions : List Leg :=
  [⟨"call", "buy"⟩, ⟨"put", "buy"⟩]

/-- `LongStrangle.x0`. -/
def longStrangle_x0 (underlying_price min_days_to_expiration : ℚ) : List ℚ :=
  [1, underlying_price + 1, min_days_to_expiration,
   underlying_price - 1, min_days_to_expiration]

/-- `LongStrangle.bounds`. -/
def longStrangle_bounds (underlying_price min_days_to_expiration : ℚ)
    (available_options : Catalog) : Except Err (List (ℚ × ℚ)) := do
  let puts ← catalogGet available_options "PUT"
  let min_put_days ← pyMin (puts.map (fun dk => dk.1))
  let max_put_days ← pyMax (puts.map (fun dk => dk.1))
  let min_put_strike ← minStrike puts
  let _max_put_strike ← maxStrike puts
  let calls ← catalogGet available_options "CALL"
  let min_call_days ← pyMin (calls.map (fun dk => dk.1))
  let max_call_days ← pyMax (calls.map (fun dk => dk.1))
  let _min_call_strike ← minStrike calls
  let max_call_strike ← maxStrike calls
  return [
    (1, 1000),
    (underlying_price * (1001/1000), max_call_strike),
    (pyMaxQ min_call_days (min_days_to_expiration + 1), max_call_days),
    (min_put_strike, underlying_price * (999/1000)),
    (pyMaxQ min_put_days (min_days_to_expiration + 1), max_put_days)]

/-- `LongStraddle.options`. -/
def longStraddleOptions : List Leg :=
  [⟨"put", "buy"⟩, ⟨"call", "buy"⟩]

/-- `LongStraddle.x0`. -/
def longStraddle_x0 (underlying_price min_days_to_expiration : ℚ) : List ℚ :=
  [1, underlying_price, min_days_to_expiration,
   underlying_price, min_days_to_expiration]

/-- `LongStraddle.bounds`. -/
def longStraddle_bounds (_underlying_price min_days_to_expiration : ℚ)
    (available_options : Catalog) : Except Err (List (ℚ × ℚ)) := do
  let puts ← catalogGet available_options "PUT"
  let min_put_days ← pyMin (puts.map (fun dk => dk.1))
  let max_put_days ← pyMax (puts.map (fun dk => dk.1))
  let min_put_strike ← minStrike puts
  let max_put_strike ← maxStrike puts
  let calls ← catalogGet available_options "CALL"
  let min_call_days ← pyMin (calls.map (fun dk => dk.1))
  let max_call_days ← pyMax (calls.map (fun dk => dk.1))
  let min_call_strike ← minStrike calls
  let max_call_strike ← maxStrike calls
  return [
    (1, 1000),
    (min_put_strike, max_put_strike),
    (pyMaxQ min_put_days (min_days_to_expiration + 1), max_put_days),
    (min_call_strike, max_call_strike),
    (pyMaxQ min_call_days (min_days_to_expiration + 1), max_call_days)]

/-! ## Continuous optimizer `StrategyOptimizerBS` (`optimizer.py`)

The instance state after construction (and, once `optimize` has run, the
solver output `_optimization_result.x` / `.fun`).  The Black–Scholes price
`black_scholes_euro_option_price` from the compiled `optionstools.pricing`
extension is taken as a function parameter
`price : call_flag → S → K → T → r → sigma → premium` (spec §2, §6: a pure
deterministic function). -/
structure StrategyOptimizerBS where
  current_price : ℚ
  future_price : ℚ
  days_forward : ℚ
  sigma : ℚ
  r : ℚ
  max_premium : ℚ
  is_optimized : Bool
  x : List ℚ
  fun_val : ℚ
  deriving DecidableEq, Repr

/-- The in-place mutation performed by the loop in
`StrategyOptimizerBS.best_strategy`: walking
`zip(best_strategy, x[1::2], x[2::2])` it writes `strike`,
`days_to_expiration` and the shared `quantity` into each zipped dict,
leaving any unzipped suffix untouched. -/
def updateLegs (legs : List LegDict) (kts : List (ℚ × ℚ)) (q : ℚ) : List LegDict :=
  match legs, kts with
  | d :: ds, (k, t) :: rest =>
      { d with strike := some k, days_to_expiration := some t, quantity := some q } ::
        updateLegs ds rest q
  | ds, [] => ds
  | [], _ => []

/-- `StrategyOptimizerBS.best_strategy`.  `self.strategy.options.copy()` is
a shallow copy: the returned list contains the very dict objects of the
class-level `options` list (the world), and the loop mutates them in
place, so the world after the call is the returned list itself. -/
def StrategyOptimizerBS.best_strategy (inst : StrategyOptimizerBS) (w : World) :
    Except Err (List LegDict) × World :=
  if inst.is_optimized = false then (.error .unoptimized, w)
  else
    let kts := (stride2 inst.x.tail).zip (stride2 inst.x.tail.tail)
    let updated := updateLegs w kts (inst.x.headD 0)
    (.ok updated, updated)

/-- `StrategyOptimizerBS.max_profit`: guarded negated objective value. -/
def StrategyOptimizerBS.max_profit (inst : StrategyOptimizerBS) : Except Err ℚ :=
  if inst.is_optimized = false then .error .unoptimized else .ok (-inst.fun_val)

/-- The accumulation loop of `StrategyOptimizerBS.get_profit`: for each
selected leg dict, reads the solved keys (a missing key is a `KeyError`)
and subtracts the signed open and close premiums. -/
def profitLoop (price : ℤ → ℚ → ℚ → ℚ → ℚ → ℚ → ℚ)
    (current_price days_forward r sigma equity_price : ℚ) :
    List LegDict → ℚ → Except Err ℚ
  | [], acc => .ok acc
  | option :: rest, acc =>
    let flags := convert_action_string_to_flags option.action
    let call_flag : ℤ := if option.otype = "call" then 1 else -1
    match option.strike, option.days_to_expiration, option.quantity with
    | some strike, some days, some quantity =>
        let premium_open := price call_flag current_price strike days r sigma
        let premium_close := price call_flag equity_price strike (days - days_forward) r sigma
        profitLoop price current_price days_forward r sigma equity_price rest
          (acc - quantity * (flags.1 : ℚ) * premium_open
               - quantity * (flags.2 : ℚ) * premium_close)
    | _, _, _ => .error .keyError

/-- `StrategyOptimizerBS.get_profit(equity_price, leg=None)`.  The `leg`
argument selects `best_strategy[leg - 1 : leg]` only when `leg` is truthy
(`None` and `0` both fall through to the whole strategy).  Note that the
`self.best_strategy` property call mutates the shared dicts exactly as in
`best_strategy`. -/
def StrategyOptimizerBS.get_profit (price : ℤ → ℚ → ℚ → ℚ → ℚ → ℚ → ℚ)
    (inst : StrategyOptimizerBS) (w : World) (equity_price : ℚ) (leg : Option ℤ) :
    Except Err ℚ × World :=
  if inst.is_optimized = false then (.error .unoptimized, w)
  else match inst.best_strategy w with
  | (.error e, w1) => (.error e, w1)
  | (.ok bs, w1) =>
      let options := match leg with
        | some i => if i = 0 then bs else pySlice bs (i - 1) i
        | none => bs
      (profitLoop price inst.current_price inst.days_forward inst.r inst.sigma
        equity_price options 0, w1)

/-! ## Grid search optimizer `GridSearchBS` (`optimizer.py`) -/

/-- One grid candidate `[call_flag, buy_flag, strikes, days]` as appended
by `GridSearchBS.optimize`. -/
structure GLeg where
  call_flag : ℤ
  buy_flag : ℤ
  strike : ℚ
  days : ℚ
  deriving DecidableEq, Repr

/-- A leg dict returned by `GridSearchBS.best_strategy`. -/
structure GOutLeg where
  otype : String
  action : String
  strike : ℚ
  days_to_expiration : ℚ
  quantity : ℚ
  deriving DecidableEq, Repr

/-- `GridSearchBS` instance state; the trailing `Option` fields model the
`_max_profit`, `_opt_strategy` and `_quantity` attributes, absent until
`optimize` assigns them (reading an absent attribute is an
`AttributeError`). -/
structure GridSearchBS where
  current_price : ℚ
  future_price : ℚ
  days_forward : ℚ
  sigma : ℚ
  r : ℚ
  max_premium : ℚ
  is_optimized : Bool
  max_profit_attr : Option ℚ
  opt_strategy_attr : Option (List GLeg)
  quantity_attr : Option ℚ
  deriving DecidableEq, Repr

/-- A freshly constructed `GridSearchBS`: `is_optimized = False`, result
attributes not yet assigned. -/
def GridSearchBS.fresh (current_price future_price days_forward sigma r max_premium : ℚ) :
    GridSearchBS :=
  ⟨current_price, future_price, days_forward, sigma, r, max_premium, false, none, none, none⟩

/-- ASCII lowering of one character (Python `str.lower` restricted to the
ASCII catalog keys `CALL`/`PUT`). -/
def lowerChar (c : Char) : Char :=
  if c.isUpper then Char.ofNat (c.toNat + 32) else c

/-- ASCII `available.lower()` for catalog keys. -/
def pyLower (s : String) : String := ⟨s.data.map lowerChar⟩

/-- The inner harvest of `GridSearchBS.optimize` for one leg: all catalog
entries under a key whose lowercasing equals the leg's type, tagged with
the given flags, in catalog order, then days order, then strike order. -/
def entriesFor (cat : Catalog) (t : String) (cf bf : ℤ) : List GLeg :=
  (cat.filter (fun kv => pyLower kv.1 = t)).flatMap
    (fun kv => kv.2.flatMap (fun dk => dk.2.map (fun strikes => ⟨cf, bf, strikes, dk.1⟩)))

/-- Which of the four accumulator lists (`call_buy`, `call_sell`,
`put_buy`, `put_sell`) a leg feeds and references. -/
def bucketId (o : Leg) : Bool × Bool := (o.otype = "call", o.action = "buy")

/-- Final contents of one accumulator list after the whole leg loop: the
lists are shared across iterations in the source, so each holds the
harvest of every leg routed to it. -/
def bucketContent (options : List Leg) (cat : Catalog) (b : Bool × Bool) : List GLeg :=
  (options.filter (fun o => bucketId o = b)).flatMap
    (fun o => entriesFor cat o.otype (if o.otype = "call" then 1 else -1)
      (if o.action = "buy" then 1 else -1))

/-- The `combos` list passed to `itertools.product`: one (shared,
fully accumulated) candidate list per leg. -/
def gridCombos (options : List Leg) (cat : Catalog) : List (List GLeg) :=
  options.map (fun o => bucketContent options cat (bucketId o))

/-- `strats = list(product(*combos))`. -/
def gridStrats (options : List Leg) (cat : Catalog) : List (List GLeg) :=
  listProduct (gridCombos options cat)

/-- Per-leg term of the grid-search `profit` accumulation. -/
def gridLegProfit (price : ℤ → ℚ → ℚ → ℚ → ℚ → ℚ → ℚ) (S F r sigma : ℚ) (leg : GLeg) : ℚ :=
  pyMaxQ 0 (F - leg.strike)
    - price leg.call_flag S leg.strike leg.days r sigma * (1 + r) * (leg.buy_flag : ℚ)

/-- `profit` of one candidate combination. -/
def gridProfit (price : ℤ → ℚ → ℚ → ℚ → ℚ → ℚ → ℚ) (S F r sigma : ℚ) (s : List GLeg) : ℚ :=
  (s.map (gridLegProfit price S F r sigma)).sum

/-- `premium` of one candidate combination (accumulated by repeated
subtraction in the source, hence the leading minus). -/
def gridPremium (price : ℤ → ℚ → ℚ → ℚ → ℚ → ℚ → ℚ) (S r sigma : ℚ) (s : List GLeg) : ℚ :=
  -(s.map (fun leg => price leg.call_flag S leg.strike leg.days r sigma * (leg.buy_flag : ℚ))).sum

/-- One iteration of the scanning loop over `strats`: the running state is
`(max_profit, opt_strategy, cost)` and is replaced only on a strictly
greater profit. -/
def gridStep (price : ℤ → ℚ → ℚ → ℚ → ℚ → ℚ → ℚ) (S F r sigma : ℚ)
    (st : ℚ × List GLeg × ℚ) (s : List GLeg) : ℚ × List GLeg × ℚ :=
  if gridProfit price S F r sigma s > st.1 then
    (gridProfit price S F r sigma s, s, gridPremium price S r sigma s)
  else st

/-- The whole scanning loop, started from `max_profit = 0`, `cost = 0`,
`opt_strategy = []`. -/
def gridScan (price : ℤ → ℚ → ℚ → ℚ → ℚ → ℚ → ℚ) (S F r sigma : ℚ)
    (strats : List (List GLeg)) : ℚ × List GLeg × ℚ :=
  strats.foldl (gridStep price S F r sigma) (0, [], 0)

/-- `GridSearchBS.optimize`.  Faithful to the statement order of the
source: `is_optimized`, `_max_profit` and `_opt_strategy` are assigned
before the quantity division, so when the accumulated `cost` is zero the
`ZeroDivisionError` is raised with those attributes already set. -/
def GridSearchBS.optimize (price : ℤ → ℚ → ℚ → ℚ → ℚ → ℚ → ℚ)
    (options : List Leg) (cat : Catalog) (inst : GridSearchBS) :
    Except Err Unit × GridSearchBS :=
  let strats := gridStrats options cat
  let res := gridScan price inst.current_price inst.future_price inst.r inst.sigma strats
  let st1 := { inst with is_optimized := true,
                         max_profit_attr := some res.1,
                         opt_strategy_attr := some res.2.1 }
  if res.2.2 = 0 then (.error .zeroDivisionError, st1)
  else (.ok (), { st1 with quantity_attr := some (pyAbs (inst.max_premium / res.2.2)) })

/-- `GridSearchBS.max_profit`: the source reads `self._max_profit` before
testing `is_optimized`, so on a fresh instance the attribute read itself
raises. -/
def GridSearchBS.max_profit (inst : GridSearchBS) : Except Err ℚ :=
  match inst.max_profit_attr with
  | none => .error .attributeError
  | some m => if inst.is_optimized = false then .error .unoptimized else .ok m

/-- `GridSearchBS.best_strategy`: again the `_opt_strategy` and
`_quantity` reads precede the `is_optimized` test. -/
def GridSearchBS.best_strategy (inst : GridSearchBS) : Except Err (List GOutLeg) :=
  match inst.opt_strategy_attr, inst.quantity_attr with
  | none, _ => .error .attributeError
  | some _, none => .error .attributeError
  | some o, some q =>
      if inst.is_optimized = false then .error .unoptimized
      else .ok (o.map (fun s =>
        ⟨if s.call_flag = 1 then "call" else "put",
         if s.buy_flag = 1 then "buy" else "sell",
         s.strike, s.days, q⟩))

/-! ## Feasible region of the continuous optimization (`optimizer.py`, real-valued)

`StrategyOptimizerBS.optimize` hands `scipy.optimize.minimize` (method
SLSQP) the objective `_get_profit_function` negated, the nonlinear budget
constraint `cost(x) ∈ [-max_premium, 100000]`, the strategy's linear
constraint `(A, lower_bound, upper_bound)` and the per-variable `bounds`.
The solver is an external library; following spec §4.1/§8 it is modelled
as exact constrained optimization, i.e. `max_profit` is a least upper
bound of the profit over the feasible region below.  The per-leg cost and
revenue functions (built from the external pricing module) are function
parameters. -/

/-- The aggregate cost (or revenue) of `x = [qty, K1, T1, ..., Kn, Tn]`
from a list of per-leg `(K, T)` functions, as built by
`_get_cost_function` / `_get_revenue_function`:
`x[0] * sum(f(*kt) for f, kt in zip(fns, x[1:].reshape(n, 2)))`. -/
def stratAggregate (fns : List (ℝ → ℝ → ℝ)) (x : List ℝ) : ℝ :=
  x.headD 0 * ((fns.zip (chunk2 x.tail)).map (fun p => p.1 p.2.1 p.2.2)).sum

/-- The objective built by `_get_profit_function`:
`neg_profit_(x) = -(revenue(x) + cost(x))`. -/
def neg_profit (revenue_fns cost_fns : List (ℝ → ℝ → ℝ)) (x : List ℝ) : ℝ :=
  -(stratAggregate revenue_fns x + stratAggregate cost_fns x)

/-- A row–vector product for the linear constraint `A @ x`. -/
def dotR (row x : List ℝ) : ℝ :=
  ((row.zip x).map (fun p => p.1 * p.2)).sum

/-- `scipy.optimize.LinearConstraint(A, lower_bound, upper_bound)`
satisfaction. -/
def linConstraintOK (A : List (List ℝ)) (lb ub : List ℝ) (x : List ℝ) : Prop :=
  ∀ p ∈ A.zip (lb.zip ub), p.2.1 ≤ dotR p.1 x ∧ dotR p.1 x ≤ p.2.2

/-- Per-variable `bounds` satisfaction. -/
def inBoundsR (bnds : List (ℝ × ℝ)) (x : List ℝ) : Prop :=
  x.length = bnds.length ∧ List.Forall₂ (fun b xi => b.1 ≤ xi ∧ xi ≤ b.2) bnds x

/-- The feasible region handed to the solver for a budget `M`:
`NonlinearConstraint(cost, -max_premium, 100_000)` together with the
strategy's linear constraint and bounds. -/
def feasibleSet (cost_fns : List (ℝ → ℝ → ℝ)) (A : List (List ℝ)) (lb ub : List ℝ)
    (bnds : List (ℝ × ℝ)) (M : ℝ) : Set (List ℝ) :=
  {x | -M ≤ stratAggregate cost_fns x ∧ stratAggregate cost_fns x ≤ 100000 ∧
       linConstraintOK A lb ub x ∧ inBoundsR bnds x}

/-- The set of profits attainable over the feasible region; `max_profit`
(the negated minimized objective) of an exact solver is a least upper
bound of this set. -/
def attainableProfits (revenue_fns cost_fns : List (ℝ → ℝ → ℝ)) (A : List (List ℝ))
    (lb ub : List ℝ) (bnds : List (ℝ × ℝ)) (M : ℝ) : Set ℝ :=
  (fun x => -neg_profit revenue_fns cost_fns x) '' feasibleSet cost_fns A lb ub bnds M

/-! ## Concrete fixtures used by witnesses and counterexamples -/

/-- A concrete pure pricing function (premium twice the strike), used as a
test instantiation of the external Black–Scholes evaluator. -/
def testPrice2K : ℤ → ℚ → ℚ → ℚ → ℚ → ℚ → ℚ := fun _ _ strike _ _ _ => 2 * strike

/-- A catalog quoting calls at strikes 150 and 151 expiring in 30 days. -/
def testCallCat : Catalog := [("CALL", [(30, [150, 151])])]

/-- A catalog quoting only puts (no entries of type call). -/
def testPutOnlyCat : Catalog := [("PUT", [(30, [100])])]

/-- A fresh grid search over underlying 100, predicted price 300, 30 days
forward, volatility 1, rate 0, budget 10. -/
def testGrid : GridSearchBS := GridSearchBS.fresh 100 300 30 1 0 10

/-- The class-level `options` dicts of `BullCallSpread` in their pristine
state, shared by every optimizer built over an instance of that class. -/
def bullCallWorld : World :=
  [⟨"call", "buy", none, none, none⟩, ⟨"call", "sell", none, none, none⟩]

/-- An already-optimized continuous optimizer over a bull call spread
whose solver returned `x = [1, 99, 30, 101, 30]` with objective value
`-5`. -/
def instA : StrategyOptimizerBS :=
  ⟨100, 105, 30, 1/4, 1/100, 100, true, [1, 99, 30, 101, 30], -5⟩

/-- A freshly constructed, not yet optimized continuous optimizer with the
same market parameters. -/
def instFresh : StrategyOptimizerBS :=
  ⟨100, 105, 30, 1/4, 1/100, 100, false, [], 0⟩

/-- The state of `testGrid` after a successful `optimize` against
`testCallCat` with `testPrice2K`: winning combination buy-150/sell-151,
profit 301, premium 2, quantity |10 / 2| = 5. -/
def testGridOut : GridSearchBS :=
  ⟨100, 300, 30, 1, 0, 10, true, some 301,
   some [⟨1, 1, 150, 30⟩, ⟨1, -1, 151, 30⟩], some 5⟩

/-- A catalog quoting one call and one put, both at strike 100 expiring in
30 days. -/
def catBoth : Catalog := [("CALL", [(30, [100])]), ("PUT", [(30, [100])])]

/-- Declared bounds compatible with the solver output of `instA`. -/
def bndsA : List (ℚ × ℚ) := [(1, 1000), (99, 100), (30, 30), (100, 101), (30, 30)]

/-! ## Properties of the grid-search scanning loop -/

theorem pyMaxQ_left (a b : ℚ) : a ≤ pyMaxQ a b := by
  unfold pyMaxQ; split <;> [exact le_of_lt (by assumption); exact le_rfl]

theorem pyMaxQ_right (a b : ℚ) : b ≤ pyMaxQ a b := by
  unfold pyMaxQ; split <;> [exact le_rfl; exact le_of_not_lt (by assumption)]

theorem foldl_pyMaxQ_init : ∀ (l : List ℚ) (a : ℚ), a ≤ l.foldl pyMaxQ a := by
  intro l
  induction l with
  | nil => intro a; exact le_rfl
  | cons x xs ih =>
    intro a
    exact le_trans (pyMaxQ_left a x) (ih (pyMaxQ a x))

theorem mem_le_foldl_pyMaxQ : ∀ (l : List ℚ) (a : ℚ), ∀ x ∈ l, x ≤ l.foldl pyMaxQ a := by
  intro l
  induction l with
  | nil => intro a x hx; cases hx
  | cons y ys ih =>
    intro a x hx
    rcases List.mem_cons.mp hx with rfl | hmem
    · exact le_trans (pyMaxQ_right a x) (foldl_pyMaxQ_init ys (pyMaxQ a x))
    · exact ih (pyMaxQ a y) x hmem

/-- The first component of the scanning loop is the running maximum of the
candidate profits. -/
theorem gridScan_fst (price : ℤ → ℚ → ℚ → ℚ → ℚ → ℚ → ℚ) (S F r sg : ℚ) :
    ∀ (l : List (List GLeg)) (st : ℚ × List GLeg × ℚ),
      (l.foldl (gridStep price S F r sg) st).1 =
        (l.map (gridProfit price S F r sg)).foldl pyMaxQ st.1 := by
  intro l
  induction l with
  | nil => intro st; rfl
  | cons s rest ih =>
    intro st
    have hstep : (gridStep price S F r sg st s).1 = pyMaxQ st.1 (gridProfit price S F r sg s) := by
      unfold gridStep pyMaxQ
      by_cases hc : gridProfit price S F r sg s > st.1
      · rw [if_pos hc, if_pos hc]
      · rw [if_neg hc, if_neg hc]
    calc (List.foldl (gridStep price S F r sg) st (s :: rest)).1
        = (List.foldl (gridStep price S F r sg) (gridStep price S F r sg st s) rest).1 := rfl
      _ = (rest.map (gridProfit price S F r sg)).foldl pyMaxQ (gridStep price S F r sg st s).1 :=
          ih _
      _ = _ := by rw [hstep]; rfl

/-- Invariant of the scanning loop: either no candidate beats the initial
running maximum and the state is unchanged, or the final state records the
first candidate attaining the final maximum together with its premium. -/
theorem gridScan_go (price : ℤ → ℚ → ℚ → ℚ → ℚ → ℚ → ℚ) (S F r sg : ℚ) :
    ∀ (l : List (List GLeg)) (st : ℚ × List GLeg × ℚ),
      (l.foldl (gridStep price S F r sg) st = st ∧
        ∀ s ∈ l, gridProfit price S F r sg s ≤ st.1) ∨
      (∃ l1 o l2, l = l1 ++ o :: l2 ∧
        (l.foldl (gridStep price S F r sg) st).2.1 = o ∧
        (l.foldl (gridStep price S F r sg) st).2.2 = gridPremium price S r sg o ∧
        gridProfit price S F r sg o = (l.foldl (gridStep price S F r sg) st).1 ∧
        st.1 < gridProfit price S F r sg o ∧
        ∀ t ∈ l1, gridProfit price S F r sg t < gridProfit price S F r sg o) := by
  intro l
  induction l with
  | nil => intro st; exact Or.inl ⟨rfl, by intro s hs; cases hs⟩
  | cons s rest ih =>
    intro st
    have hfold : List.foldl (gridStep price S F r sg) st (s :: rest) =
        List.foldl (gridStep price S F r sg) (gridStep price S F r sg st s) rest := rfl
    by_cases hc : gridProfit price S F r sg s > st.1
    · have hs : gridStep price S F r sg st s =
          (gridProfit price S F r sg s, s, gridPremium price S r sg s) := by
        unfold gridStep; rw [if_pos hc]
      rcases ih (gridStep price S F r sg st s) with ⟨heq, hall⟩ | ⟨l1, o, l2, hsplit, h1, h2, h3, hlt, hbef⟩
      · refine Or.inr ⟨[], s, rest, by simp, ?_, ?_, ?_, hc, by intro t ht; cases ht⟩
        · rw [hfold, heq, hs]
        · rw [hfold, heq, hs]
        · rw [hfold, heq, hs]
      · refine Or.inr ⟨s :: l1, o, l2, by rw [hsplit]; rfl, ?_, ?_, ?_, ?_, ?_⟩
        · rw [hfold]; exact h1
        · rw [hfold]; exact h2
        · rw [hfold]; exact h3
        · have : (gridStep price S F r sg st s).1 = gridProfit price S F r sg s := by
            rw [hs]
          rw [this] at hlt
          exact lt_trans hc hlt
        · intro t ht
          rcases List.mem_cons.mp ht with rfl | hmem
          · rw [hs] at hlt
            simpa using hlt
          · exact hbef t hmem
    · have hs : gridStep price S F r sg st s = st := by
        unfold gridStep; rw [if_neg hc]
      rcases ih (gridStep price S F r sg st s) with ⟨heq, hall⟩ | ⟨l1, o, l2, hsplit, h1, h2, h3, hlt, hbef⟩
      · refine Or.inl ⟨by rw [hfold, heq, hs], ?_⟩
        intro t ht
        rcases List.mem_cons.mp ht with rfl | hmem
        · exact le_of_not_lt hc
        · have := hall t hmem
          rw [hs] at this
          exact this
      · rw [hs] at hlt
        refine Or.inr ⟨s :: l1, o, l2, by rw [hsplit]; rfl, ?_, ?_, ?_, hlt, ?_⟩
        · rw [hfold]; exact h1
        · rw [hfold]; exact h2
        · rw [hfold]; exact h3
        · intro t ht
          rcases List.mem_cons.mp ht with rfl | hmem
          · exact lt_of_le_of_lt (le_of_not_lt hc) hlt
          · exact hbef t hmem

/-! ## Properties of the in-place leg mutation -/

theorem updateLegs_nil (kts : List (ℚ × ℚ)) (q : ℚ) : updateLegs [] kts q = [] := by
  cases kts <;> rfl

theorem updateLegs_length : ∀ (w : List LegDict) (kts : List (ℚ × ℚ)) (q : ℚ),
    (updateLegs w kts q).length = w.length := by
  intro w
  induction w with
  | nil => intro kts q; rw [updateLegs_nil]
  | cons d ds ih =>
    intro kts q
    cases kts with
    | nil => rfl
    | cons kt rest => simpa [updateLegs] using ih rest q

theorem updateLegs_idem : ∀ (w : List LegDict) (kts : List (ℚ × ℚ)) (q : ℚ),
    updateLegs (updateLegs w kts q) kts q = updateLegs w kts q := by
  intro w
  induction w with
  | nil => intro kts q; rw [updateLegs_nil, updateLegs_nil]
  | cons d ds ih =>
    intro kts q
    cases kts with
    | nil => rfl
    | cons kt rest => simp [updateLegs, ih rest q]

theorem updateLegs_quantity : ∀ (w : List LegDict) (kts : List (ℚ × ℚ)) (q : ℚ),
    w.length ≤ kts.length → ∀ d ∈ updateLegs w kts q, d.quantity = some q := by
  intro w
  induction w with
  | nil => intro kts q _ d hd; rw [updateLegs_nil] at hd; cases hd
  | cons e ds ih =>
    intro kts q hlen d hd
    cases kts with
    | nil => simp at hlen
    | cons kt rest =>
      rcases kt with ⟨k, t⟩
      rcases List.mem_cons.mp hd with rfl | hmem
      · rfl
      · exact ih rest q (by simpa using hlen) d hmem

theorem stride2_cons_tail (b : ℚ) (r : List ℚ) : stride2 (b :: r) = b :: stride2 r.tail := by
  cases r <;> rfl

theorem chunk2_zip_stride2 : ∀ l : List ℚ, (stride2 l).zip (stride2 l.tail) = chunk2 l
  | [] => rfl
  | [_] => rfl
  | a :: b :: r => by
    rw [show stride2 (a :: b :: r) = a :: stride2 r from rfl, List.tail_cons,
      stride2_cons_tail, List.zip_cons_cons, chunk2_zip_stride2 r]
    rfl

theorem chunk2_length {α : Type} : ∀ l : List α, (chunk2 l).length = l.length / 2
  | [] => by simp [chunk2]
  | [_] => by simp [chunk2]
  | _ :: _ :: r => by
    rw [show chunk2 (_ :: _ :: r) = _ :: chunk2 r from rfl]
    simp only [List.length_cons, chunk2_length r]
    omega

theorem updateLegs_forall₂ :
    ∀ (w : List LegDict) (xs : List ℚ) (bs : List (ℚ × ℚ)) (q : ℚ),
      List.Forall₂ (fun b xi => b.1 ≤ xi ∧ xi ≤ b.2) bs xs →
      xs.length = 2 * w.length →
      List.Forall₂ (fun bp d => ∃ k t, d.strike = some k ∧ d.days_to_expiration = some t ∧
        bp.1.1 ≤ k ∧ k ≤ bp.1.2 ∧ bp.2.1 ≤ t ∧ t ≤ bp.2.2)
        (chunk2 bs) (updateLegs w (chunk2 xs) q) := by
  intro w
  induction w with
  | nil =>
    intro xs bs q hf hlen
    have hxs : xs = [] := List.length_eq_zero.mp (by simpa using hlen)
    subst hxs
    have hbs : bs = [] := List.length_eq_zero.mp (by simpa using List.Forall₂.length_eq hf)
    subst hbs
    exact List.Forall₂.nil
  | cons d ds ih =>
    intro xs bs q hf hlen
    match xs, hlen with
    | k :: t :: rest, hlen =>
      match bs, hf with
      | bk :: bt :: brest, hf =>
        rcases List.forall₂_cons.mp hf with ⟨hk, hf1⟩
        rcases List.forall₂_cons.mp hf1 with ⟨ht, hf2⟩
        refine List.forall₂_cons.mpr ⟨⟨k, t, rfl, rfl, hk.1, hk.2, ht.1, ht.2⟩, ?_⟩
        exact ih rest brest q hf2 (by simp only [List.length_cons] at hlen; omega)

theorem pySlice_oob {α : Type} (l : List α) (a b : ℤ) (ha0 : 0 ≤ a)
    (ha : (l.length : ℤ) ≤ a) : pySlice l a b = [] := by
  simp only [pySlice, pyMinI, pyMaxI]
  rw [if_neg (by omega : ¬ a < 0)]
  have h1 : l.length ≤ (if (l.length : ℤ) < a then (l.length : ℤ) else a).toNat := by
    split <;> omega
  rw [List.drop_eq_nil_of_le h1]
  exact List.take_nil

/-! ## Claims -/

/-- C1: on a freshly constructed (never optimized) `GridSearchBS`, the
source reads `self._max_profit` (resp. `self._opt_strategy`,
`self._quantity`) before testing `is_optimized`, so the read fails with
`AttributeError` and the `UnoptimizedStrategyOptimizerException` guard on
the next line is dead code; `StrategyOptimizerBS` tests the flag first and
raises the documented error.  This refutes the claim that every
pre-optimization read fails with the "optimizer not yet run" error and
never a different error. -/
theorem c1_grid_unoptimized_read_is_attribute_error :
    (GridSearchBS.fresh 100 105 30 (1/4) (1/100) 100).max_profit =
      .error .attributeError ∧
    (GridSearchBS.fresh 100 105 30 (1/4) (1/100) 100).best_strategy =
      .error .attributeError ∧
    instFresh.max_profit = .error .unoptimized ∧
    (instFresh.best_strategy bullCallWorld).1 = .error .unoptimized ∧
    Err.attributeError ≠ Err.unoptimized := by
  decide

/-- C3: a catalog with no entries for the legs' required type (a bull call
spread against a put-only catalog) yields zero candidate combinations, and
`GridSearchBS.optimize` then raises `ZeroDivisionError` from the quantity
division — not any dedicated "ill-posed optimization" error.  Moreover a
genuine zero-profit run (candidates exist but none has positive profit)
raises the very same `ZeroDivisionError`, so the two situations are not
reported distinctly. -/
theorem c3_zero_candidates_raise_zero_division :
    gridStrats bullCallSpreadOptions testPutOnlyCat = [] ∧
    (testGrid.optimize testPrice2K bullCallSpreadOptions testPutOnlyCat).1 =
      .error .zeroDivisionError ∧
    gridStrats bullCallSpreadOptions [("CALL", [(30, [150])])] ≠ [] ∧
    ((GridSearchBS.fresh 100 0 30 1 0 10).optimize (fun _ _ _ _ _ _ => (1 : ℚ))
        bullCallSpreadOptions [("CALL", [(30, [150])])]).1 =
      .error .zeroDivisionError := by
  refine ⟨by decide, by decide, by decide, ?_⟩
  norm_num +decide [GridSearchBS.optimize, gridStrats, gridCombos, bucketContent, entriesFor,
    bucketId, listProduct, gridScan, gridStep, gridProfit, gridLegProfit, gridPremium, pyMaxQ,
    pyLower, lowerChar, GridSearchBS.fresh, bullCallSpreadOptions]

/-- C5: reading `best_strategy` on one optimizer writes the solved
`strike`/`days_to_expiration`/`quantity` into the class-level leg dicts of
the strategy class, which are aliased by every other optimizer built over
a strategy object of the same class (the `options` list is a class
attribute and `best_strategy` only takes a shallow copy).  A sibling's
observable leg dicts therefore change, refuting the no-shared-state
claim. -/
theorem c5_best_strategy_mutates_shared_class_dicts :
    (instA.best_strategy bullCallWorld).2 ≠ bullCallWorld ∧
    (instA.best_strategy bullCallWorld).2 =
      [⟨"call", "buy", some 99, some 30, some 1⟩,
       ⟨"call", "sell", some 101, some 30, some 1⟩] := by
  decide

/-- The scanning loop from its actual initial state: the stored maximum
dominates every candidate profit. -/
theorem gridScan_max (price : ℤ → ℚ → ℚ → ℚ → ℚ → ℚ → ℚ) (S F r sg : ℚ)
    (l : List (List GLeg)) :
    (gridScan price S F r sg l).1 = (l.map (gridProfit price S F r sg)).foldl pyMaxQ 0 :=
  gridScan_fst price S F r sg l (0, [], 0)

/-- The scanning loop from its actual initial state: either nothing beat
the initial zero, or the final state holds the first candidate attaining
the final maximum and its premium. -/
theorem gridScan_spec (price : ℤ → ℚ → ℚ → ℚ → ℚ → ℚ → ℚ) (S F r sg : ℚ)
    (l : List (List GLeg)) :
    (gridScan price S F r sg l = (0, [], 0) ∧ ∀ s ∈ l, gridProfit price S F r sg s ≤ 0) ∨
    (∃ l1 o l2, l = l1 ++ o :: l2 ∧
      (gridScan price S F r sg l).2.1 = o ∧
      (gridScan price S F r sg l).2.2 = gridPremium price S r sg o ∧
      gridProfit price S F r sg o = (gridScan price S F r sg l).1 ∧
      0 < gridProfit price S F r sg o ∧
      ∀ t ∈ l1, gridProfit price S F r sg t < gridProfit price S F r sg o) :=
  gridScan_go price S F r sg l (0, [], 0)

/-- Evaluation helper shared by several witnesses: the concrete grid
search of the fixtures succeeds with the expected state. -/
theorem testGrid_optimize_eq :
    testGrid.optimize testPrice2K bullCallSpreadOptions testCallCat = (.ok (), testGridOut) := by
  norm_num +decide [GridSearchBS.optimize, gridStrats, gridCombos, bucketContent, entriesFor,
    bucketId, listProduct, gridScan, gridStep, gridProfit, gridLegProfit, gridPremium, pyMaxQ,
    pyAbs, pyLower, lowerChar, testGrid, GridSearchBS.fresh, testCallCat, bullCallSpreadOptions,
    testPrice2K, testGridOut]

/-- C2: whenever `GridSearchBS.optimize` completes successfully, the
stored `_max_profit` is attained by a candidate combination and dominates
the profit of every candidate in the Cartesian product, and the stored
`_opt_strategy` is the first candidate in enumeration order attaining that
maximum (every strictly earlier candidate has strictly smaller profit, so
ties keep the first found). -/
theorem c2_grid_stores_first_argmax (price : ℤ → ℚ → ℚ → ℚ → ℚ → ℚ → ℚ)
    (options : List Leg) (cat : Catalog) (g gOut : GridSearchBS)
    (h : g.optimize price options cat = (.ok (), gOut)) :
    ∃ m o l1 l2,
      gOut.max_profit_attr = some m ∧
      gOut.opt_strategy_attr = some o ∧
      o ∈ gridStrats options cat ∧
      gridProfit price g.current_price g.future_price g.r g.sigma o = m ∧
      (∀ s ∈ gridStrats options cat,
        gridProfit price g.current_price g.future_price g.r g.sigma s ≤ m) ∧
      gridStrats options cat = l1 ++ o :: l2 ∧
      (∀ t ∈ l1, gridProfit price g.current_price g.future_price g.r g.sigma t < m) := by
  simp only [GridSearchBS.optimize] at h
  by_cases hz : (gridScan price g.current_price g.future_price g.r g.sigma
      (gridStrats options cat)).2.2 = 0
  · rw [if_pos hz] at h
    exact Except.noConfusion (congrArg Prod.fst h)
  · rw [if_neg hz] at h
    have hg : _ = gOut := congrArg Prod.snd h
    subst hg
    rcases gridScan_spec price g.current_price g.future_price g.r g.sigma
        (gridStrats options cat) with ⟨heq, -⟩ | ⟨l1, o, l2, hsplit, h1, h2, h3, -, hbef⟩
    · exact absurd (by rw [heq]) hz
    · refine ⟨(gridScan price g.current_price g.future_price g.r g.sigma
        (gridStrats options cat)).1, o, l1, l2, rfl, ?_, ?_, ?_, ?_, hsplit, ?_⟩
      · show some (gridScan price g.current_price g.future_price g.r g.sigma
          (gridStrats options cat)).2.1 = some o
        rw [h1]
      · rw [hsplit]
        exact List.mem_append.mpr (Or.inr (List.mem_cons_self o l2))
      · exact h3
      · intro s hs
        rw [gridScan_max]
        exact mem_le_foldl_pyMaxQ _ 0 _ (List.mem_map_of_mem _ hs)
      · intro t ht
        rw [← h3]
        exact hbef t ht

/-- C2 witness: the concrete bull-call-spread grid search of the fixtures
exercises the theorem with its hypothesis discharged by evaluation. -/
theorem c2_grid_stores_first_argmax_witness :
    ∃ m o l1 l2,
      testGridOut.max_profit_attr = some m ∧
      testGridOut.opt_strategy_attr = some o ∧
      o ∈ gridStrats bullCallSpreadOptions testCallCat ∧
      gridProfit testPrice2K testGrid.current_price testGrid.future_price testGrid.r
        testGrid.sigma o = m ∧
      (∀ s ∈ gridStrats bullCallSpreadOptions testCallCat,
        gridProfit testPrice2K testGrid.current_price testGrid.future_price testGrid.r
          testGrid.sigma s ≤ m) ∧
      gridStrats bullCallSpreadOptions testCallCat = l1 ++ o :: l2 ∧
      (∀ t ∈ l1, gridProfit testPrice2K testGrid.current_price testGrid.future_price
        testGrid.r testGrid.sigma t < m) :=
  c2_grid_stores_first_argmax testPrice2K bullCallSpreadOptions testCallCat testGrid
    testGridOut testGrid_optimize_eq

/-- C4: on success the stored quantity is `|max_premium / premium|` of the
winning combination, whose premium is nonzero; when the accumulated
premium of the scan is exactly zero, `optimize` raises `ZeroDivisionError`
and leaves the quantity attribute unassigned, so no infinite or NaN
quantity can reach the caller. -/
theorem c4_grid_quantity_guard (price : ℤ → ℚ → ℚ → ℚ → ℚ → ℚ → ℚ)
    (options : List Leg) (cat : Catalog) (g gOut : GridSearchBS) :
    (g.optimize price options cat = (.ok (), gOut) →
      ∃ o, gOut.opt_strategy_attr = some o ∧
        gridPremium price g.current_price g.r g.sigma o ≠ 0 ∧
        gOut.quantity_attr =
          some (pyAbs (g.max_premium / gridPremium price g.current_price g.r g.sigma o))) ∧
    ((gridScan price g.current_price g.future_price g.r g.sigma (gridStrats options cat)).2.2 = 0 →
      (g.optimize price options cat).1 = .error .zeroDivisionError ∧
      (g.optimize price options cat).2.quantity_attr = g.quantity_attr) := by
  constructor
  · intro h
    simp only [GridSearchBS.optimize] at h
    by_cases hz : (gridScan price g.current_price g.future_price g.r g.sigma
        (gridStrats options cat)).2.2 = 0
    · rw [if_pos hz] at h
      exact Except.noConfusion (congrArg Prod.fst h)
    · rw [if_neg hz] at h
      have hg : _ = gOut := congrArg Prod.snd h
      subst hg
      rcases gridScan_spec price g.current_price g.future_price g.r g.sigma
          (gridStrats options cat) with ⟨heq, -⟩ | ⟨l1, o, l2, -, h1, h2, -, -, -⟩
      · exact absurd (by rw [heq]) hz
      · refine ⟨o, ?_, ?_, ?_⟩
        · show some (gridScan price g.current_price g.future_price g.r g.sigma
            (gridStrats options cat)).2.1 = some o
          rw [h1]
        · rw [← h2]
          exact hz
        · show some (pyAbs (g.max_premium / (gridScan price g.current_price g.future_price
            g.r g.sigma (gridStrats options cat)).2.2)) = _
          rw [h2]
  · intro hz
    simp only [GridSearchBS.optimize]
    rw [if_pos hz]
    exact ⟨rfl, rfl⟩

/-- C4 witness: the fixture grid search has a nonzero winning premium and
the expected quantity; the put-only catalog run hits the zero-premium
branch and raises. -/
theorem c4_grid_quantity_guard_witness :
    (∃ o, testGridOut.opt_strategy_attr = some o ∧
      gridPremium testPrice2K testGrid.current_price testGrid.r testGrid.sigma o ≠ 0 ∧
      testGridOut.quantity_attr = some (pyAbs (testGrid.max_premium /
        gridPremium testPrice2K testGrid.current_price testGrid.r testGrid.sigma o))) ∧
    ((testGrid.optimize testPrice2K bullCallSpreadOptions testPutOnlyCat).1 =
      .error .zeroDivisionError ∧
     (testGrid.optimize testPrice2K bullCallSpreadOptions testPutOnlyCat).2.quantity_attr =
      testGrid.quantity_attr) := by
  constructor
  · exact (c4_grid_quantity_guard testPrice2K bullCallSpreadOptions testCallCat testGrid
      testGridOut).1 testGrid_optimize_eq
  · exact (c4_grid_quantity_guard testPrice2K bullCallSpreadOptions testPutOnlyCat testGrid
      testGridOut).2 (by decide)

/-- C8: on an already-optimized instance, two successive `get_profit`
calls with the same arguments return the same value, and the second call
leaves the shared dicts exactly as the first left them — `get_profit` is a
pure re-evaluation of the solved state, not a re-optimization. -/
theorem c8_get_profit_idempotent (price : ℤ → ℚ → ℚ → ℚ → ℚ → ℚ → ℚ)
    (inst : StrategyOptimizerBS) (w : World) (equity_price : ℚ) (leg : Option ℤ)
    (hopt : inst.is_optimized = true) :
    (inst.get_profit price (inst.get_profit price w equity_price leg).2 equity_price leg).1 =
      (inst.get_profit price w equity_price leg).1 ∧
    (inst.get_profit price (inst.get_profit price w equity_price leg).2 equity_price leg).2 =
      (inst.get_profit price w equity_price leg).2 := by
  simp [StrategyOptimizerBS.get_profit, StrategyOptimizerBS.best_strategy, hopt,
    updateLegs_idem]

/-- C8 witness: concrete instantiation on the optimized fixture. -/
theorem c8_get_profit_idempotent_witness :
    (instA.get_profit testPrice2K (instA.get_profit testPrice2K bullCallWorld 50 none).2
        50 none).1 =
      (instA.get_profit testPrice2K bullCallWorld 50 none).1 ∧
    (instA.get_profit testPrice2K (instA.get_profit testPrice2K bullCallWorld 50 none).2
        50 none).2 =
      (instA.get_profit testPrice2K bullCallWorld 50 none).2 :=
  c8_get_profit_idempotent testPrice2K instA bullCallWorld 50 none rfl

/-- C10: for an optimized instance, `get_profit` with an integer `leg`
larger than the number of legs returns `0.0` (the slice
`best_strategy[leg-1:leg]` is empty, so no error is raised and no leg is
re-priced), and `leg = 0` is falsy in Python, so it selects the whole
strategy exactly as `leg = None` does. -/
theorem c10_get_profit_leg_slicing (price : ℤ → ℚ → ℚ → ℚ → ℚ → ℚ → ℚ)
    (inst : StrategyOptimizerBS) (w : World) (equity_price : ℚ) (i : ℤ)
    (hopt : inst.is_optimized = true) (hi : (w.length : ℤ) < i) :
    (inst.get_profit price w equity_price (some i)).1 = .ok 0 ∧
    inst.get_profit price w equity_price (some 0) =
      inst.get_profit price w equity_price none := by
  constructor
  · have hi0 : ¬ i = 0 := by omega
    simp only [StrategyOptimizerBS.get_profit, StrategyOptimizerBS.best_strategy, hopt,
      Bool.true_eq_false, if_false, if_neg hi0]
    rw [pySlice_oob _ _ _ (by omega)
      (by rw [updateLegs_length]; omega)]
    rfl
  · simp [StrategyOptimizerBS.get_profit]

/-- C10 witness: the two-leg fixture with `leg = 5`. -/
theorem c10_get_profit_leg_slicing_witness :
    (instA.get_profit testPrice2K bullCallWorld 100 (some 5)).1 = .ok 0 ∧
    instA.get_profit testPrice2K bullCallWorld 100 (some 0) =
      instA.get_profit testPrice2K bullCallWorld 100 none :=
  c10_get_profit_leg_slicing testPrice2K instA bullCallWorld 100 5 rfl (by decide)

/-- C6 counterexample: a concrete optimized `GridSearchBS` over a bull
call spread whose winning first leg has strike 150, while the instance's
declared bounds for that leg's strike are `(150, 100.1)` — the strike does
not lie within the declared bounds, refuting the bounds clause of the
claim for the grid search. -/
theorem c6_counterexample_grid_ignores_bounds :
    (testGrid.optimize testPrice2K bullCallSpreadOptions testCallCat).1 = .ok () ∧
    (testGrid.optimize testPrice2K bullCallSpreadOptions testCallCat).2.best_strategy =
      .ok [⟨"call", "buy", 150, 30, 5⟩, ⟨"call", "sell", 151, 30, 5⟩] ∧
    bullCallSpread_bounds 100 1 testCallCat =
      .ok [(1, 1000), (150, 1001/10), (30, 30), (999/10, 151), (30, 30)] ∧
    ¬((150 : ℚ) ≤ 1001/10) := by
  refine ⟨?_, ?_, ?_, by norm_num⟩
  · rw [testGrid_optimize_eq]
  · rw [testGrid_optimize_eq]
    decide
  · norm_num +decide [bullCallSpread_bounds, catalogGet, pyMin, pyMax, minStrike, maxStrike,
      pyMinQ, pyMaxQ, testCallCat, List.mapM, List.mapM.loop, Bind.bind, Except.bind,
      pure, Except.pure]

/-- C6 (amended): every leg returned by `best_strategy` carries the single
shared solved quantity, for both optimizers; for `StrategyOptimizerBS`,
whenever the solver output respects the declared bounds, each leg's solved
strike and days-to-expiration lie within the corresponding bound pair; the
grid search, however, draws strikes and expirations from the catalog and
its winning legs need not lie within the strategy's declared bounds. -/
theorem c6_amended_quantity_and_bounds (price : ℤ → ℚ → ℚ → ℚ → ℚ → ℚ → ℚ)
    (options : List Leg) (cat : Catalog) (g gOut : GridSearchBS) (glegs : List GOutLeg)
    (inst : StrategyOptimizerBS) (w : World) (bs : List LegDict) (w1 : World)
    (bnds : List (ℚ × ℚ))
    (hg : g.optimize price options cat = (.ok (), gOut))
    (hgl : gOut.best_strategy = .ok glegs)
    (hopt : inst.is_optimized = true)
    (hx : inst.x.length = 2 * w.length + 1)
    (hbs : inst.best_strategy w = (.ok bs, w1))
    (hb : List.Forall₂ (fun b xi => b.1 ≤ xi ∧ xi ≤ b.2) bnds inst.x) :
    (∃ q, gOut.quantity_attr = some q ∧ ∀ d ∈ glegs, d.quantity = q) ∧
    (∀ d ∈ bs, d.quantity = some (inst.x.headD 0)) ∧
    List.Forall₂ (fun bp d => ∃ k t, d.strike = some k ∧ d.days_to_expiration = some t ∧
      bp.1.1 ≤ k ∧ k ≤ bp.1.2 ∧ bp.2.1 ≤ t ∧ t ≤ bp.2.2) (chunk2 bnds.tail) bs := by
  have hkts : (stride2 inst.x.tail).zip (stride2 inst.x.tail.tail) = chunk2 inst.x.tail := by
    rw [← chunk2_zip_stride2]
  have hxshape : ∃ q0 rest, inst.x = q0 :: rest := by
    cases hxv : inst.x with
    | nil => rw [hxv] at hx; simp at hx
    | cons q0 rest => exact ⟨q0, rest, rfl⟩
  obtain ⟨q0, xrest, hxv⟩ := hxshape
  have hbsv : bs = updateLegs w (chunk2 inst.x.tail) (inst.x.headD 0) := by
    simp only [StrategyOptimizerBS.best_strategy, hopt, Bool.true_eq_false, if_false,
      hkts] at hbs
    exact (Except.ok.inj (congrArg Prod.fst hbs)).symm
  refine ⟨?_, ?_, ?_⟩
  · -- grid search part
    simp only [GridSearchBS.optimize] at hg
    by_cases hz : (gridScan price g.current_price g.future_price g.r g.sigma
        (gridStrats options cat)).2.2 = 0
    · rw [if_pos hz] at hg
      exact absurd (congrArg Prod.fst hg) (by simp)
    · rw [if_neg hz] at hg
      have hgo : _ = gOut := congrArg Prod.snd hg
      subst hgo
      refine ⟨pyAbs (g.max_premium / (gridScan price g.current_price g.future_price g.r
        g.sigma (gridStrats options cat)).2.2), rfl, ?_⟩
      have hglv := Except.ok.inj hgl
      subst hglv
      intro d hd
      rcases List.mem_map.mp hd with ⟨s, -, rfl⟩
      rfl
  · -- shared quantity for the continuous optimizer
    rw [hbsv]
    refine updateLegs_quantity w _ _ ?_
    rw [chunk2_length, hxv, List.tail_cons]
    rw [hxv] at hx
    simp only [List.length_cons] at hx
    omega
  · -- bounds for the continuous optimizer
    rw [hbsv, hxv]
    rcases List.forall₂_cons_right_iff.mp (hxv ▸ hb) with ⟨b0, brest, hb0, hbrest, rfl⟩
    simp only [List.tail_cons]
    exact updateLegs_forall₂ w xrest brest q0 hbrest
      (by rw [hxv] at hx; simp only [List.length_cons] at hx; omega)

/-- C6 witness for the amended claim, instantiating both optimizers at the
concrete fixtures. -/
theorem c6_amended_quantity_and_bounds_witness :
    (∃ q, testGridOut.quantity_attr = some q ∧
      ∀ d ∈ [(⟨"call", "buy", 150, 30, 5⟩ : GOutLeg), ⟨"call", "sell", 151, 30, 5⟩],
        d.quantity = q) ∧
    (∀ d ∈ [(⟨"call", "buy", some 99, some 30, some 1⟩ : LegDict),
        ⟨"call", "sell", some 101, some 30, some 1⟩],
      d.quantity = some (instA.x.headD 0)) ∧
    List.Forall₂ (fun bp d => ∃ k t, d.strike = some k ∧ d.days_to_expiration = some t ∧
      bp.1.1 ≤ k ∧ k ≤ bp.1.2 ∧ bp.2.1 ≤ t ∧ t ≤ bp.2.2) (chunk2 bndsA.tail)
      [(⟨"call", "buy", some 99, some 30, some 1⟩ : LegDict),
       ⟨"call", "sell", some 101, some 30, some 1⟩] := by
  exact c6_amended_quantity_and_bounds testPrice2K bullCallSpreadOptions testCallCat
    testGrid testGridOut
    [⟨"call", "buy", 150, 30, 5⟩, ⟨"call", "sell", 151, 30, 5⟩]
    instA bullCallWorld
    [⟨"call", "buy", some 99, some 30, some 1⟩, ⟨"call", "sell", some 101, some 30, some 1⟩]
    [⟨"call", "buy", some 99, some 30, some 1⟩, ⟨"call", "sell", some 101, some 30, some 1⟩]
    bndsA testGrid_optimize_eq (by decide) rfl (by decide) (by decide)
    (by norm_num [bndsA, instA, List.forall₂_cons])

/-- Dissects a successful monadic bind in `Except`. -/
theorem except_bind_ok {α β : Type} {e : Except Err α} {f : α → Except Err β} {b : β}
    (h : e >>= f = .ok b) : ∃ a, e = .ok a ∧ f a = .ok b := by
  cases e with
  | ok a => exact ⟨a, rfl, h⟩
  | error er =>
    simp only [Bind.bind, Except.bind] at h
    exact Except.noConfusion h

/-- C9: for each of the five defined strategies, whenever the `bounds`
property evaluates without raising, both `x0` and `bounds` have length
`1 + 2 * leg_count`. -/
theorem c9_x0_bounds_lengths (S mD : ℚ) (cat : Catalog)
    (b1 b2 b3 b4 b5 : List (ℚ × ℚ))
    (h1 : bullCallSpread_bounds S mD cat = .ok b1)
    (h2 : bearPutSpread_bounds S mD cat = .ok b2)
    (h3 : protectiveCollar_bounds S mD cat = .ok b3)
    (h4 : longStrangle_bounds S mD cat = .ok b4)
    (h5 : longStraddle_bounds S mD cat = .ok b5) :
    ((bullCallSpread_x0 S mD).length = 1 + 2 * bullCallSpreadOptions.length ∧
      b1.length = 1 + 2 * bullCallSpreadOptions.length) ∧
    ((bearPutSpread_x0 S mD).length = 1 + 2 * bearPutSpreadOptions.length ∧
      b2.length = 1 + 2 * bearPutSpreadOptions.length) ∧
    ((protectiveCollar_x0 S mD).length = 1 + 2 * protectiveCollarOptions.length ∧
      b3.length = 1 + 2 * protectiveCollarOptions.length) ∧
    ((longStrangle_x0 S mD).length = 1 + 2 * longStrangleOptions.length ∧
      b4.length = 1 + 2 * longStrangleOptions.length) ∧
    ((longStraddle_x0 S mD).length = 1 + 2 * longStraddleOptions.length ∧
      b5.length = 1 + 2 * longStraddleOptions.length) := by
  simp only [bullCallSpread_bounds] at h1
  obtain ⟨_, _, h1⟩ := except_bind_ok h1
  obtain ⟨_, _, h1⟩ := except_bind_ok h1
  obtain ⟨_, _, h1⟩ := except_bind_ok h1
  obtain ⟨_, _, h1⟩ := except_bind_ok h1
  obtain ⟨_, _, h1⟩ := except_bind_ok h1
  have hb1 := Except.ok.inj h1
  simp only [bearPutSpread_bounds] at h2
  obtain ⟨_, _, h2⟩ := except_bind_ok h2
  obtain ⟨_, _, h2⟩ := except_bind_ok h2
  obtain ⟨_, _, h2⟩ := except_bind_ok h2
  obtain ⟨_, _, h2⟩ := except_bind_ok h2
  obtain ⟨_, _, h2⟩ := except_bind_ok h2
  have hb2 := Except.ok.inj h2
  simp only [protectiveCollar_bounds] at h3
  obtain ⟨_, _, h3⟩ := except_bind_ok h3
  obtain ⟨_, _, h3⟩ := except_bind_ok h3
  obtain ⟨_, _, h3⟩ := except_bind_ok h3
  obtain ⟨_, _, h3⟩ := except_bind_ok h3
  obtain ⟨_, _, h3⟩ := except_bind_ok h3
  obtain ⟨_, _, h3⟩ := except_bind_ok h3
  obtain ⟨_, _, h3⟩ := except_bind_ok h3
  obtain ⟨_, _, h3⟩ := except_bind_ok h3
  obtain ⟨_, _, h3⟩ := except_bind_ok h3
  obtain ⟨_, _, h3⟩ := except_bind_ok h3
  have hb3 := Except.ok.inj h3
  simp only [longStrangle_bounds] at h4
  obtain ⟨_, _, h4⟩ := except_bind_ok h4
  obtain ⟨_, _, h4⟩ := except_bind_ok h4
  obtain ⟨_, _, h4⟩ := except_bind_ok h4
  obtain ⟨_, _, h4⟩ := except_bind_ok h4
  obtain ⟨_, _, h4⟩ := except_bind_ok h4
  obtain ⟨_, _, h4⟩ := except_bind_ok h4
  obtain ⟨_, _, h4⟩ := except_bind_ok h4
  obtain ⟨_, _, h4⟩ := except_bind_ok h4
  obtain ⟨_, _, h4⟩ := except_bind_ok h4
  obtain ⟨_, _, h4⟩ := except_bind_ok h4
  have hb4 := Except.ok.inj h4
  simp only [longStraddle_bounds] at h5
  obtain ⟨_, _, h5⟩ := except_bind_ok h5
  obtain ⟨_, _, h5⟩ := except_bind_ok h5
  obtain ⟨_, _, h5⟩ := except_bind_ok h5
  obtain ⟨_, _, h5⟩ := except_bind_ok h5
  obtain ⟨_, _, h5⟩ := except_bind_ok h5
  obtain ⟨_, _, h5⟩ := except_bind_ok h5
  obtain ⟨_, _, h5⟩ := except_bind_ok h5
  obtain ⟨_, _, h5⟩ := except_bind_ok h5
  obtain ⟨_, _, h5⟩ := except_bind_ok h5
  obtain ⟨_, _, h5⟩ := except_bind_ok h5
  have hb5 := Except.ok.inj h5
  subst hb1 hb2 hb3 hb4 hb5
  exact ⟨⟨rfl, rfl⟩, ⟨rfl, rfl⟩, ⟨rfl, rfl⟩, ⟨rfl, rfl⟩, ⟨rfl, rfl⟩⟩

/-- C9 witness: all five strategies at underlying 100, minimum days 1 and
a concrete catalog quoting one call and one put. -/
theorem c9_x0_bounds_lengths_witness :
    ((bullCallSpread_x0 100 1).length = 1 + 2 * bullCallSpreadOptions.length ∧
      ([((1 : ℚ), (1000 : ℚ)), (100, 1001/10), (30, 30), (999/10, 100), (30, 30)]).length =
        1 + 2 * bullCallSpreadOptions.length) ∧
    ((bearPutSpread_x0 100 1).length = 1 + 2 * bearPutSpreadOptions.length ∧
      ([((1 : ℚ), (1000 : ℚ)), (100, 100), (30, 30), (100, 100), (30, 30)]).length =
        1 + 2 * bearPutSpreadOptions.length) ∧
    ((protectiveCollar_x0 100 1).length = 1 + 2 * protectiveCollarOptions.length ∧
      ([((1 : ℚ)/1000, (1000 : ℚ)), (100, 99), (30, 30), (101, 100), (30, 30)]).length =
        1 + 2 * protectiveCollarOptions.length) ∧
    ((longStrangle_x0 100 1).length = 1 + 2 * longStrangleOptions.length ∧
      ([((1 : ℚ), (1000 : ℚ)), (1001/10, 100), (30, 30), (100, 999/10), (30, 30)]).length =
        1 + 2 * longStrangleOptions.length) ∧
    ((longStraddle_x0 100 1).length = 1 + 2 * longStraddleOptions.length ∧
      ([((1 : ℚ), (1000 : ℚ)), (100, 100), (30, 30), (100, 100), (30, 30)]).length =
        1 + 2 * longStraddleOptions.length) :=
  c9_x0_bounds_lengths 100 1 catBoth _ _ _ _ _
    (by norm_num +decide [bullCallSpread_bounds, catalogGet, pyMin, pyMax, minStrike,
      maxStrike, pyMinQ, pyMaxQ, catBoth, List.mapM, List.mapM.loop, Bind.bind, Except.bind,
      pure, Except.pure])
    (by norm_num +decide [bearPutSpread_bounds, catalogGet, pyMin, pyMax, minStrike,
      maxStrike, pyMinQ, pyMaxQ, catBoth, List.mapM, List.mapM.loop, Bind.bind, Except.bind,
      pure, Except.pure])
    (by norm_num +decide [protectiveCollar_bounds, catalogGet, pyMin, pyMax, minStrike,
      maxStrike, pyMinQ, pyMaxQ, catBoth, List.mapM, List.mapM.loop, Bind.bind, Except.bind,
      pure, Except.pure])
    (by norm_num +decide [longStrangle_bounds, catalogGet, pyMin, pyMax, minStrike,
      maxStrike, pyMinQ, pyMaxQ, catBoth, List.mapM, List.mapM.loop, Bind.bind, Except.bind,
      pure, Except.pure])
    (by norm_num +decide [longStraddle_bounds, catalogGet, pyMin, pyMax, minStrike,
      maxStrike, pyMinQ, pyMaxQ, catBoth, List.mapM, List.mapM.loop, Bind.bind, Except.bind,
      pure, Except.pure])

/-- C7: with all other problem data fixed, enlarging the premium budget
enlarges the feasible region handed to the solver, so the exact optimum of
the profit (`max_profit` of an exact solver, modelled as the least upper
bound of the attainable profits) never decreases: `M1 ≤ M2` implies
`max_profit(M1) ≤ max_profit(M2)`. -/
theorem c7_budget_monotone (revenue_fns cost_fns : List (ℝ → ℝ → ℝ)) (A : List (List ℝ))
    (lb ub : List ℝ) (bnds : List (ℝ × ℝ)) (M1 M2 v1 v2 : ℝ)
    (hM : M1 ≤ M2)
    (h1 : IsLUB (attainableProfits revenue_fns cost_fns A lb ub bnds M1) v1)
    (h2 : IsLUB (attainableProfits revenue_fns cost_fns A lb ub bnds M2) v2) :
    v1 ≤ v2 := by
  apply h1.2
  intro y hy
  apply h2.1
  obtain ⟨x, hx, rfl⟩ := hy
  refine ⟨x, ?_, rfl⟩
  obtain ⟨hlo, hhi, hlin, hbnd⟩ := hx
  exact ⟨le_trans (neg_le_neg hM) hlo, hhi, hlin, hbnd⟩

/-- With no legs at all the profit is identically zero and the empty
vector is feasible for every nonnegative budget, so the attainable-profit
set is `{0}`. -/
theorem attainableProfits_no_legs (M : ℝ) (hM : 0 ≤ M) :
    attainableProfits [] [] [] [] [] [] M = {0} := by
  have hagg : ∀ x : List ℝ, stratAggregate [] x = 0 := by
    intro x
    simp [stratAggregate]
  ext y
  constructor
  · rintro ⟨x, -, rfl⟩
    simp [neg_profit, hagg]
  · intro hy
    rw [Set.mem_singleton_iff] at hy
    subst hy
    refine ⟨[], ⟨?_, ?_, ?_, rfl, List.Forall₂.nil⟩, ?_⟩
    · rw [hagg]; linarith
    · rw [hagg]; norm_num
    · intro p hp; simp at hp
    · simp [neg_profit, hagg]

/-- C7 witness: concrete budgets 0 ≤ 1 with the degenerate no-leg
problem, whose exact optimum is 0 for both budgets. -/
theorem c7_budget_monotone_witness :
    (0 : ℝ) ≤ 1 ∧
    IsLUB (attainableProfits [] [] [] [] [] [] 0) 0 ∧
    IsLUB (attainableProfits [] [] [] [] [] [] 1) 0 ∧
    (0 : ℝ) ≤ 0 := by
  have h0 : IsLUB (attainableProfits [] [] [] [] [] [] 0) 0 := by
    rw [attainableProfits_no_legs 0 le_rfl]; exact isLUB_singleton
  have h1 : IsLUB (attainableProfits [] [] [] [] [] [] 1) 0 := by
    rw [attainableProfits_no_legs 1 (by norm_num)]; exact isLUB_singleton
  exact ⟨by norm_num, h0, h1,
    c7_budget_monotone [] [] [] [] [] [] 0 1 0 0 (by norm_num) h0 h1⟩

end OptionsTools
